import Mathlib

/-!
Verification of the address-book system
(`src/address_book_system.py`: `Contact`, `AddressBook`, `AddressBookSystem`).

Modelling choices, each matching the source:
* An `AddressBook`'s CSV file is modelled as the list of its data rows, each
  row decoded to a `Contact` (the `csv` writer/reader round-trips the eight
  string fields, and every operation re-reads the file, so state passing of
  the row list is faithful).  The fixed header row is the constant
  `csvHeader`.
* Python's `str.lower()` is modelled by `lowerKey` — per-character ASCII
  folding of the string's character list (the reasoning is generic in the
  folding function).  Python compares strings lexicographically by code
  point, which is exactly the lexicographic order on the character lists,
  so every `x.lower() == / < / <= y.lower()` in the source becomes the
  corresponding relation between `lowerKey x` and `lowerKey y`.
* Python's stable `list.sort(key=...)` is modelled by insertion sort on the
  non-strict key comparison, which is extensionally the unique stable sort
  for a given key.
* The registry's `dict` of books (Python dicts are insertion ordered) is
  modelled as an association list `List (String × Book)`; `create` appends,
  `del` erases the (unique) entry.
* Operations whose only output is `print` (`AddressBookSystem.search_by_city`
  and friends, the registry sorts, the counts) are modelled as returning the
  sequence of printed lines (`OutLine` events, rendered to the exact strings
  by `renderLine`), the printed contact order, or the printed number.
-/

structure Contact where
  first_name : String
  last_name : String
  address : String
  city : String
  state : String
  zip_code : String
  phone : String
  email : String
deriving DecidableEq

def Contact.to_list (c : Contact) : List String :=
  [c.first_name, c.last_name, c.address, c.city, c.state, c.zip_code, c.phone, c.email]

/-- The header row written when a book's CSV file is created. -/
def csvHeader : List String :=
  ["First Name", "Last Name", "Address", "City", "State", "Zip Code", "Phone", "Email"]

/-- Python's `s.lower()` as a comparison key: the string's characters,
case-folded.  Comparing two strings in Python is comparing their
code-point sequences, i.e. the lexicographic order on these lists. -/
def lowerKey (s : String) : List Char :=
  s.data.map Char.toLower

/-- The case-insensitive full-name test used by find/remove/update:
`contact.first_name.lower() == first_name.lower() and
 contact.last_name.lower() == last_name.lower()`. -/
def nameMatches (c : Contact) (first : String) (last : String) : Bool :=
  lowerKey c.first_name == lowerKey first && lowerKey c.last_name == lowerKey last

/-- The data rows of one address book's CSV file, in file order. -/
abbrev Book := List Contact

/-- Python `list.sort(key=k)` (a stable ascending sort by key `k`),
modelled by insertion sort on the non-strict key comparison. -/
def pySort {α κ : Type} [LinearOrder κ] (k : α → κ) (l : List α) : List α :=
  l.insertionSort (fun x y => k x ≤ k y)

namespace AddressBook

/-- `add_contact`: appends one data row to the CSV file. -/
def add_contact (book : Book) (c : Contact) : Book :=
  book ++ [c]

/-- `find_contact_by_name`: first row (in file order) whose first and last
name both match case-insensitively, else `None`. -/
def find_contact_by_name (book : Book) (first : String) (last : String) : Option Contact :=
  match book with
  | [] => none
  | c :: cs =>
    if nameMatches c first last then some c else find_contact_by_name cs first last

/-- `remove_contact`: rewrites the file keeping every non-matching row;
the flag records whether any row matched. -/
def remove_contact (book : Book) (first : String) (last : String) : Book × Bool :=
  match book with
  | [] => ([], false)
  | c :: cs =>
    let r := remove_contact cs first last
    if nameMatches c first last then (r.1, true) else (c :: r.1, r.2)

/-- `update_contact`: rewrites the file replacing every matching row by
`new_contact`'s row; the flag records whether any row matched. -/
def update_contact (book : Book) (first : String) (last : String)
    (new_contact : Contact) : Book × Bool :=
  match book with
  | [] => ([], false)
  | c :: cs =>
    let r := update_contact cs first last new_contact
    if nameMatches c first last then (new_contact :: r.1, true) else (c :: r.1, r.2)

/-- `search_by_city`: all rows whose city matches case-insensitively, in file order. -/
def search_by_city (book : Book) (city : String) : Book :=
  book.filter (fun c => lowerKey c.city == lowerKey city)

/-- `search_by_state`: all rows whose state matches case-insensitively, in file order. -/
def search_by_state (book : Book) (state : String) : Book :=
  book.filter (fun c => lowerKey c.state == lowerKey state)

end AddressBook

/-- The attribute names accepted by `sort_contacts`'s `getattr(x, key)`. -/
inductive FieldKey
  | first_name | last_name | address | city | state | zip_code | phone | email
deriving DecidableEq

def getField (key : FieldKey) (c : Contact) : String :=
  match key with
  | .first_name => c.first_name
  | .last_name => c.last_name
  | .address => c.address
  | .city => c.city
  | .state => c.state
  | .zip_code => c.zip_code
  | .phone => c.phone
  | .email => c.email

namespace AddressBook

/-- `sort_contacts`: reads all rows, sorts the contacts stably by the
lower-cased value of the named attribute, and returns header plus rows. -/
def sort_contacts (book : Book) (key : FieldKey) : List (List String) :=
  csvHeader :: (pySort (fun c => lowerKey (getField key c)) book).map Contact.to_list

end AddressBook

/-- The registry's insertion-ordered mapping from book name to book contents. -/
abbrev Registry := List (String × Book)

/-- One printed line of the registry's search output. -/
inductive OutLine
  | cityHeader (city : String)
  | stateHeader (state : String)
  | contactLine (c : Contact)
  | noCityFound (city : String)
  | noStateFound (state : String)
deriving DecidableEq

/-- The exact text of an output line (`\x27` is the ASCII apostrophe the
f-strings put around the searched value). -/
def renderLine : OutLine → String
  | .cityHeader city => "\nContacts in City \x27" ++ city ++ "\x27:"
  | .stateHeader state => "\nContacts in State \x27" ++ state ++ "\x27:"
  | .contactLine c =>
    "Name: " ++ c.first_name ++ " " ++ c.last_name ++ ", Address: " ++ c.address ++
      ", City: " ++ c.city ++ ", State: " ++ c.state ++ ", Zip: " ++ c.zip_code ++
      ", Phone: " ++ c.phone ++ ", Email: " ++ c.email
  | .noCityFound city => "No contacts found in City \x27" ++ city ++ "\x27."
  | .noStateFound state => "No contacts found in State \x27" ++ state ++ "\x27."

/-- The contacts printed in a sequence of output lines, in print order. -/
def contactsOf (out : List OutLine) : List Contact :=
  out.filterMap (fun x => match x with | .contactLine c => some c | _ => none)

namespace AddressBookSystem

/-- `create_address_book`: no-op (plus a message) when the name is taken,
otherwise inserts a fresh empty book under the name (Python dict insert
appends; the new CSV file holds only the header). -/
def create_address_book (r : Registry) (name : String) : Registry :=
  if (r.map Prod.fst).contains name then r else r ++ [(name, [])]

/-- `delete_address_book`: removes the named entry (and its file) when
present, otherwise a no-op plus a message. -/
def delete_address_book (r : Registry) (name : String) : Registry :=
  if (r.map Prod.fst).contains name then r.eraseP (fun nb => nb.1 == name) else r

/-- The loop body of the registry-level `search_by_city`: `found` is the
flag accumulated over the books already visited. -/
def search_by_city_from (r : Registry) (city : String) (found : Bool) : List OutLine :=
  match r with
  | [] => if found then [] else [.noCityFound city]
  | nb :: rest =>
    let contacts := AddressBook.search_by_city nb.2 city
    if contacts.isEmpty then search_by_city_from rest city found
    else (OutLine.cityHeader city :: contacts.map OutLine.contactLine) ++
      search_by_city_from rest city true

/-- Registry-level `search_by_city`: the sequence of printed lines. -/
def search_by_city (r : Registry) (city : String) : List OutLine :=
  search_by_city_from r city false

/-- Registry-level `search_by_city` as the literal printed strings. -/
def search_by_city_lines (r : Registry) (city : String) : List String :=
  (search_by_city r city).map renderLine

/-- `count_by_city`: the printed count. -/
def count_by_city (r : Registry) (city : String) : Nat :=
  r.foldl (fun acc nb => acc + (AddressBook.search_by_city nb.2 city).length) 0

/-- `count_by_state`: the printed count. -/
def count_by_state (r : Registry) (state : String) : Nat :=
  r.foldl (fun acc nb => acc + (AddressBook.search_by_state nb.2 state).length) 0

/-- The combined sort key of the registry-level name sort:
`(x.first_name.lower(), x.last_name.lower())` under tuple (lexicographic) order. -/
def nameKey (c : Contact) : Lex (List Char × List Char) :=
  toLex (lowerKey c.first_name, lowerKey c.last_name)

/-- `sort_by_name`: collects every book's rows in book order, sorts the
combined list stably by `nameKey`, and prints in that order. -/
def sort_by_name (r : Registry) : List Contact :=
  pySort nameKey ((r.map Prod.snd).flatten)

/-- `sort_by_city`: same collection, sorted stably by the lower-cased city. -/
def sort_by_city (r : Registry) : List Contact :=
  pySort (fun c => lowerKey c.city) ((r.map Prod.snd).flatten)

end AddressBookSystem

/-- Whether `needle` occurs at the very start of `hay`. -/
def matchSubAt (needle hay : List Char) : Bool :=
  match needle, hay with
  | [], _ => true
  | _ :: _, [] => false
  | a :: as, b :: bs => a == b && matchSubAt as bs

/-- Whether `needle` occurs contiguously anywhere in `hay`. -/
def hasSub (needle : List Char) : List Char → Bool
  | [] => needle.isEmpty
  | b :: bs => matchSubAt needle (b :: bs) || hasSub needle bs

/-- Whether the string `needle` occurs as a substring of `hay` (used to state
that a printed line does or does not mention a book's name). -/
def strMentions (needle hay : String) : Bool :=
  hasSub needle.data hay.data

/-! ### Concrete contacts and registries used in the counterexamples and witnesses -/

def annLee : Contact := ⟨"Ann", "Lee", "1 A St", "Reno", "NV", "89501", "775-0001", "ann@x.com"⟩

/-- Same identity key as `annLee` (case-folded name "ann lee"), other fields different. -/
def annLeeDup : Contact := ⟨"ann", "LEE", "2 B St", "Reno", "NV", "89501", "775-0002", "dup@x.com"⟩

def bobKim : Contact := ⟨"Bob", "Kim", "3 C St", "Hilo", "HI", "96720", "808-0003", "bob@x.com"⟩

/-- Same identity key as `bobKim`, other fields different. -/
def bobKimNew : Contact := ⟨"bob", "kim", "4 D St", "Hilo", "HI", "96720", "808-0004", "new@x.com"⟩

def parisAnn : Contact := ⟨"Ann", "Lee", "5 E St", "Paris", "TX", "75460", "903-0005", "ann@y.com"⟩

def parisBob : Contact := ⟨"Bob", "Kim", "6 F St", "Paris", "TX", "75460", "903-0006", "bob@y.com"⟩

def bostonX : Contact := ⟨"Cara", "Day", "7 G St", "Boston", "MA", "02108", "617-0007", "cara@x.com"⟩

def bostonY : Contact := ⟨"Dan", "Ellis", "8 H St", "boston", "MA", "02109", "617-0008", "dan@x.com"⟩

def bobZed : Contact := ⟨"Bob", "Zed", "9 I St", "Reno", "NV", "89501", "775-0009", "zed@x.com"⟩

def bobAdams : Contact := ⟨"bob", "Adams", "10 J St", "Reno", "NV", "89501", "775-0010", "adams@x.com"⟩

/-! ### Generic facts about the modelled stable sort -/

theorem pySort_perm {α κ : Type} [LinearOrder κ] (k : α → κ) (l : List α) :
    (pySort k l).Perm l :=
  List.perm_insertionSort _ l

theorem pySort_sorted {α κ : Type} [LinearOrder κ] (k : α → κ) (l : List α) :
    (pySort k l).Pairwise (fun x y => k x ≤ k y) := by
  haveI h1 : IsTotal α (fun x y => k x ≤ k y) := ⟨fun a b => le_total (k a) (k b)⟩
  haveI h2 : IsTrans α (fun x y => k x ≤ k y) := ⟨fun a b c hab hbc => le_trans hab hbc⟩
  exact List.sorted_insertionSort _ l

/-- Stability of `orderedInsert` through a class predicate `p`: filtering the
insertion of `a` either prepends `a` (when `p a`) or leaves the filter
unchanged, provided the sorting relation holds between any two elements of
the `p`-class. -/
theorem filter_orderedInsert {α : Type} (r : α → α → Prop) [DecidableRel r]
    (p : α → Bool) (hp : ∀ x y, p x = true → p y = true → r x y) (a : α) :
    ∀ l : List α, (List.orderedInsert r a l).filter p =
      if p a then a :: l.filter p else l.filter p
  | [] => by
    by_cases h : p a = true <;> simp [List.orderedInsert, h]
  | b :: l => by
    by_cases hr : r a b
    · rw [List.orderedInsert, if_pos hr]
      by_cases h : p a = true <;> simp [List.filter_cons, h]
    · rw [List.orderedInsert, if_neg hr, List.filter_cons,
        filter_orderedInsert r p hp a l, List.filter_cons]
      by_cases ha : p a = true
      · have hb : p b = false := by
          cases hpb : p b
          · rfl
          · exact absurd (hp a b ha hpb) hr
        simp [ha, hb]
      · by_cases hb : p b = true <;> simp [ha, hb]

/-- Stability of insertion sort: the elements of any class whose members are
pairwise related by the sorting relation keep their original relative order
(their filtered subsequence is unchanged). -/
theorem filter_insertionSort {α : Type} (r : α → α → Prop) [DecidableRel r]
    (p : α → Bool) (hp : ∀ x y, p x = true → p y = true → r x y) :
    ∀ l : List α, (List.insertionSort r l).filter p = l.filter p
  | [] => rfl
  | a :: l => by
    rw [List.insertionSort, filter_orderedInsert r p hp a,
      filter_insertionSort r p hp l, List.filter_cons]

/-- Stability of the modelled Python sort, stated through its own key: the
contacts whose key `==` any fixed value keep their original relative order. -/
theorem pySort_filter_key {α κ : Type} [LinearOrder κ] [BEq κ] [LawfulBEq κ]
    (k : α → κ) (v : κ) (l : List α) :
    (pySort k l).filter (fun x => k x == v) = l.filter (fun x => k x == v) :=
  filter_insertionSort _ (fun x => k x == v)
    (fun _ _ hx hy => le_of_eq ((eq_of_beq hx).trans (eq_of_beq hy).symm)) l

/-! ### Helper lemmas about the book operations -/

theorem nameMatches_self (c : Contact) : nameMatches c c.first_name c.last_name = true := by
  simp [nameMatches]

theorem find_eq_none_iff (book : Book) (f l : String) :
    AddressBook.find_contact_by_name book f l = none ↔
      ∀ c ∈ book, nameMatches c f l = false := by
  induction book with
  | nil => simp [AddressBook.find_contact_by_name]
  | cons c cs ih =>
    by_cases hm : nameMatches c f l = true <;>
      simp [AddressBook.find_contact_by_name, hm, ih]

theorem find_append_of_some (book tl : Book) (f l : String) (d : Contact)
    (h : AddressBook.find_contact_by_name book f l = some d) :
    AddressBook.find_contact_by_name (book ++ tl) f l = some d := by
  induction book with
  | nil => simp [AddressBook.find_contact_by_name] at h
  | cons c cs ih =>
    by_cases hm : nameMatches c f l = true <;>
      simp_all [AddressBook.find_contact_by_name, hm]

theorem find_append_of_none (book tl : Book) (f l : String)
    (h : AddressBook.find_contact_by_name book f l = none) :
    AddressBook.find_contact_by_name (book ++ tl) f l =
      AddressBook.find_contact_by_name tl f l := by
  induction book with
  | nil => simp
  | cons c cs ih =>
    by_cases hm : nameMatches c f l = true <;>
      simp_all [AddressBook.find_contact_by_name, hm]

/-- After `update_contact`, no row matches the old name any more, as soon as
the replacement row itself does not match it. -/
theorem find_update_old_none (f l : String) (nc : Contact)
    (hnew : nameMatches nc f l = false) :
    ∀ book : Book,
      AddressBook.find_contact_by_name (AddressBook.update_contact book f l nc).1 f l = none
  | [] => rfl
  | c :: cs => by
    by_cases hm : nameMatches c f l = true <;>
      simp [AddressBook.update_contact, hm, AddressBook.find_contact_by_name, hnew,
        find_update_old_none f l nc hnew cs]

/-- After a successful `update_contact`, the first row matching the
replacement's own name is the replacement, provided no untouched row
matches that name. -/
theorem find_update_new (f l : String) (nc : Contact) :
    ∀ book : Book,
      (∀ c ∈ book, nameMatches c f l = false →
        nameMatches c nc.first_name nc.last_name = false) →
      (AddressBook.update_contact book f l nc).2 = true →
      AddressBook.find_contact_by_name (AddressBook.update_contact book f l nc).1
        nc.first_name nc.last_name = some nc
  | [], _, hok => by simp [AddressBook.update_contact] at hok
  | c :: cs, hother, hok => by
    by_cases hm : nameMatches c f l = true
    · simp [AddressBook.update_contact, hm, AddressBook.find_contact_by_name, nameMatches_self]
    · have hc : nameMatches c nc.first_name nc.last_name = false :=
        hother c (List.mem_cons_self c cs) (Bool.eq_false_iff.mpr hm)
      have hok2 : (AddressBook.update_contact cs f l nc).2 = true := by
        simpa [AddressBook.update_contact, hm] using hok
      have ih := find_update_new f l nc cs
        (fun d hd => hother d (List.mem_cons_of_mem c hd)) hok2
      simp [AddressBook.update_contact, hm, AddressBook.find_contact_by_name, hc, ih]

theorem update_not_found : ∀ (book : Book) (f l : String) (nc : Contact),
    (AddressBook.update_contact book f l nc).2 = false →
    (AddressBook.update_contact book f l nc).1 = book
  | [], _, _, _, _ => rfl
  | c :: cs, f, l, nc, h => by
    by_cases hm : nameMatches c f l = true
    · simp [AddressBook.update_contact, hm] at h
    · have h2 : (AddressBook.update_contact cs f l nc).2 = false := by
        simpa [AddressBook.update_contact, hm] using h
      simp [AddressBook.update_contact, hm, update_not_found cs f l nc h2]

theorem remove_not_found : ∀ (book : Book) (f l : String),
    (AddressBook.remove_contact book f l).2 = false →
    (AddressBook.remove_contact book f l).1 = book
  | [], _, _, _ => rfl
  | c :: cs, f, l, h => by
    by_cases hm : nameMatches c f l = true
    · simp [AddressBook.remove_contact, hm] at h
    · have h2 : (AddressBook.remove_contact cs f l).2 = false := by
        simpa [AddressBook.remove_contact, hm] using h
      simp [AddressBook.remove_contact, hm, remove_not_found cs f l h2]

theorem remove_fst_eq_filter : ∀ (book : Book) (f l : String),
    (AddressBook.remove_contact book f l).1 = book.filter (fun c => !(nameMatches c f l))
  | [], _, _ => rfl
  | c :: cs, f, l => by
    by_cases hm : nameMatches c f l = true <;>
      simp [AddressBook.remove_contact, hm, List.filter_cons, remove_fst_eq_filter cs f l]

theorem remove_snd_eq_any : ∀ (book : Book) (f l : String),
    (AddressBook.remove_contact book f l).2 = book.any (fun c => nameMatches c f l)
  | [], _, _ => rfl
  | c :: cs, f, l => by
    by_cases hm : nameMatches c f l = true <;>
      simp [AddressBook.remove_contact, hm, remove_snd_eq_any cs f l]

/-! ### Helper lemmas about the registry operations -/

theorem foldl_add_map_sum {α : Type} (g : α → Nat) :
    ∀ (r : List α) (acc : Nat), r.foldl (fun a x => a + g x) acc = acc + (r.map g).sum
  | [], acc => by simp
  | x :: r, acc => by
    simp [List.foldl_cons, foldl_add_map_sum g r (acc + g x), Nat.add_assoc]

theorem contactsOf_map_contactLine :
    ∀ (cs : List Contact) (rest : List OutLine),
      contactsOf (cs.map OutLine.contactLine ++ rest) = cs ++ contactsOf rest
  | [], _ => rfl
  | c :: cs, rest => congrArg (List.cons c) (contactsOf_map_contactLine cs rest)

/-- The contacts printed by the registry-level city search are exactly the
concatenation, in book order, of each book's own search result; the `found`
flag only controls the final "no contacts" message. -/
theorem contactsOf_search_from (city : String) :
    ∀ (r : Registry) (found : Bool),
      contactsOf (AddressBookSystem.search_by_city_from r city found) =
        (r.map (fun nb => AddressBook.search_by_city nb.2 city)).flatten
  | [], found => by cases found <;> rfl
  | nb :: rest, found => by
    by_cases he : (AddressBook.search_by_city nb.2 city).isEmpty = true
    · have hnil : AddressBook.search_by_city nb.2 city = [] := by
        simpa using he
      simp [AddressBookSystem.search_by_city_from, he, hnil,
        contactsOf_search_from city rest found]
    · simp only [AddressBookSystem.search_by_city_from, he, if_false, Bool.false_eq_true,
        List.map_cons, List.flatten_cons]
      exact (contactsOf_map_contactLine _ _).trans
        (congrArg (fun t => AddressBook.search_by_city nb.2 city ++ t)
          (contactsOf_search_from city rest true))

/-- The registry-level city search output never depends on the book names. -/
theorem search_from_rename (city : String) (f : String → String) :
    ∀ (r : Registry) (found : Bool),
      AddressBookSystem.search_by_city_from (r.map (fun nb => (f nb.1, nb.2))) city found =
        AddressBookSystem.search_by_city_from r city found
  | [], found => rfl
  | nb :: rest, found => by
    by_cases he : (AddressBook.search_by_city nb.2 city).isEmpty = true <;>
      simp [AddressBookSystem.search_by_city_from, he,
        search_from_rename city f rest found, search_from_rename city f rest true]

/-! ### Claims -/

/-- C1, counterexample: `add_contact` on a book already holding a contact with
the same identity key ("ann lee") neither rejects (store changes) nor leaves
exactly one contact with that key (two remain), refuting the claimed
reject-or-overwrite disjunction at a concrete input. -/
theorem c1_counterexample :
    ¬ (AddressBook.add_contact [annLee] annLeeDup = [annLee] ∨
       (AddressBook.add_contact [annLee] annLeeDup).countP
         (fun d => nameMatches d annLeeDup.first_name annLeeDup.last_name) = 1) := by
  decide

/-- C1, amended: `add_contact` appends unconditionally, so when the store
already holds a contact with `c`'s identity key, afterwards the store holds
both the old entries and the new one (the key count grows by one, hence is at
least two), and `find_contact_by_name` for that key still returns the
pre-existing entry. -/
theorem c1_add_keeps_both (book : Book) (c : Contact)
    (h : 0 < book.countP (fun d => nameMatches d c.first_name c.last_name)) :
    (AddressBook.add_contact book c).countP
        (fun d => nameMatches d c.first_name c.last_name) =
      book.countP (fun d => nameMatches d c.first_name c.last_name) + 1 ∧
    2 ≤ (AddressBook.add_contact book c).countP
        (fun d => nameMatches d c.first_name c.last_name) ∧
    AddressBook.find_contact_by_name (AddressBook.add_contact book c)
        c.first_name c.last_name =
      AddressBook.find_contact_by_name book c.first_name c.last_name := by
  have hcount : (AddressBook.add_contact book c).countP
      (fun d => nameMatches d c.first_name c.last_name) =
      book.countP (fun d => nameMatches d c.first_name c.last_name) + 1 := by
    simp [AddressBook.add_contact, List.countP_append, List.countP_cons, nameMatches_self]
  refine ⟨hcount, ?_, ?_⟩
  · rw [hcount]; omega
  · cases hfind : AddressBook.find_contact_by_name book c.first_name c.last_name with
    | some d => exact find_append_of_some book [c] _ _ d hfind
    | none =>
      exfalso
      rcases List.countP_pos_iff.mp h with ⟨d, hd, hm⟩
      have hfalse := (find_eq_none_iff book _ _).mp hfind d hd
      simp_all

/-- C1, witness for `c1_add_keeps_both` at a concrete duplicate add. -/
theorem c1_add_keeps_both_witness :
    0 < List.countP (fun d => nameMatches d annLeeDup.first_name annLeeDup.last_name) [annLee] ∧
    ((AddressBook.add_contact [annLee] annLeeDup).countP
        (fun d => nameMatches d annLeeDup.first_name annLeeDup.last_name) =
      List.countP (fun d => nameMatches d annLeeDup.first_name annLeeDup.last_name) [annLee] + 1 ∧
    2 ≤ (AddressBook.add_contact [annLee] annLeeDup).countP
        (fun d => nameMatches d annLeeDup.first_name annLeeDup.last_name) ∧
    AddressBook.find_contact_by_name (AddressBook.add_contact [annLee] annLeeDup)
        annLeeDup.first_name annLeeDup.last_name =
      AddressBook.find_contact_by_name [annLee] annLeeDup.first_name annLeeDup.last_name) :=
  ⟨by decide, c1_add_keeps_both [annLee] annLeeDup (by decide)⟩

/-- C2, counterexample: after adding `annLeeDup` to a book already holding
`annLee` (same identity key, different fields), `find_contact_by_name` with
the new contact's names returns the old entry, not the added contact. -/
theorem c2_counterexample :
    AddressBook.find_contact_by_name (AddressBook.add_contact [annLee] annLeeDup)
        annLeeDup.first_name annLeeDup.last_name = some annLee ∧
    annLee ≠ annLeeDup := by
  decide

/-- C2, amended: when the book holds no contact with `c`'s identity key
(`find_contact_by_name` returns `None` beforehand), after `add_contact c`
the lookup by `c`'s first and last name returns exactly `c` (all eight
fields equal). -/
theorem c2_add_then_find (book : Book) (c : Contact)
    (h : AddressBook.find_contact_by_name book c.first_name c.last_name = none) :
    AddressBook.find_contact_by_name (AddressBook.add_contact book c)
      c.first_name c.last_name = some c := by
  rw [AddressBook.add_contact, find_append_of_none book [c] _ _ h]
  simp [AddressBook.find_contact_by_name, nameMatches_self]

/-- C2, witness for `c2_add_then_find` at a concrete fresh add. -/
theorem c2_add_then_find_witness :
    AddressBook.find_contact_by_name [bobKim] annLee.first_name annLee.last_name = none ∧
    AddressBook.find_contact_by_name (AddressBook.add_contact [bobKim] annLee)
      annLee.first_name annLee.last_name = some annLee :=
  ⟨by decide, c2_add_then_find [bobKim] annLee (by decide)⟩

/-- C3, counterexample: updating "Ann Lee" to the name "bob kim" in a book
that also holds `bobKim` succeeds and the new contact does not match the old
key, yet lookup by the new name returns the pre-existing `bobKim` (an earlier
row), not the updated contact. -/
theorem c3_counterexample :
    (AddressBook.update_contact [bobKim, annLee] "Ann" "Lee" bobKimNew).2 = true ∧
    nameMatches bobKimNew "Ann" "Lee" = false ∧
    AddressBook.find_contact_by_name
        (AddressBook.update_contact [bobKim, annLee] "Ann" "Lee" bobKimNew).1
        bobKimNew.first_name bobKimNew.last_name = some bobKim ∧
    bobKim ≠ bobKimNew := by
  decide

/-- C3, amended: after `update_contact f l nc` succeeds with `nc` not
matching the old key `(f, l)`, lookup by the old name returns `None`; and
lookup by the new name returns the updated contact provided no other stored
contact (one not matching `(f, l)`) already matches `nc`'s name. -/
theorem c3_update_then_find (book : Book) (f l : String) (nc : Contact)
    (hnew : nameMatches nc f l = false)
    (hok : (AddressBook.update_contact book f l nc).2 = true) :
    AddressBook.find_contact_by_name (AddressBook.update_contact book f l nc).1 f l = none ∧
    ((∀ c ∈ book, nameMatches c f l = false →
        nameMatches c nc.first_name nc.last_name = false) →
      AddressBook.find_contact_by_name (AddressBook.update_contact book f l nc).1
        nc.first_name nc.last_name = some nc) :=
  ⟨find_update_old_none f l nc hnew book,
   fun hother => find_update_new f l nc book hother hok⟩

/-- C3, witness for `c3_update_then_find` at a concrete name-changing edit. -/
theorem c3_update_then_find_witness :
    nameMatches bobKim "Ann" "Lee" = false ∧
    (AddressBook.update_contact [annLee] "Ann" "Lee" bobKim).2 = true ∧
    (AddressBook.find_contact_by_name
        (AddressBook.update_contact [annLee] "Ann" "Lee" bobKim).1 "Ann" "Lee" = none ∧
     AddressBook.find_contact_by_name
        (AddressBook.update_contact [annLee] "Ann" "Lee" bobKim).1
        bobKim.first_name bobKim.last_name = some bobKim) :=
  ⟨by decide, by decide,
    (c3_update_then_find [annLee] "Ann" "Lee" bobKim (by decide) (by decide)).1,
    (c3_update_then_find [annLee] "Ann" "Lee" bobKim (by decide) (by decide)).2 (by decide)⟩

/-- C4, counterexample: for a registry of two books "Alpha" and "Beta" each
with one matching contact, the printed city-search output mentions neither
book name in any line, refuting "each result tagged with the name of the
book that owns it" (the second conjunct shows the search did yield results). -/
theorem c4_counterexample :
    ((AddressBookSystem.search_by_city_lines [("Alpha", [parisAnn]), ("Beta", [parisBob])]
        "Paris").all
      (fun line => !(strMentions "Alpha" line) && !(strMentions "Beta" line))) = true ∧
    (contactsOf (AddressBookSystem.search_by_city
        [("Alpha", [parisAnn]), ("Beta", [parisBob])] "Paris")).length = 2 := by
  decide

/-- C4, amended: the registry-level `search_by_city` prints, in book-iteration
order, exactly every owned book's case-insensitively matching contacts
(under per-book city headers), but the results are not tagged with the owning
book's name — the whole output is invariant under renaming the books. -/
theorem c4_search_city_untagged (r : Registry) (city : String) :
    contactsOf (AddressBookSystem.search_by_city r city) =
      (r.map (fun nb => AddressBook.search_by_city nb.2 city)).flatten ∧
    ∀ f : String → String,
      AddressBookSystem.search_by_city (r.map (fun nb => (f nb.1, nb.2))) city =
        AddressBookSystem.search_by_city r city :=
  ⟨contactsOf_search_from city r false, fun f => search_from_rename city f r false⟩

/-- C5, counterexample: the single-book name sort (`sort_contacts` with the
`first_name` key) leaves two contacts with equal case-folded first names in
insertion order even though the second one's last name is smaller, refuting
the claimed secondary ordering by last name at book level. -/
theorem c5_counterexample :
    AddressBook.sort_contacts [bobZed, bobAdams] FieldKey.first_name =
      [csvHeader, bobZed.to_list, bobAdams.to_list] ∧
    lowerKey bobZed.first_name = lowerKey bobAdams.first_name ∧
    ¬ (lowerKey bobZed.last_name ≤ lowerKey bobAdams.last_name) := by
  decide

/-- C5, amended: the registry-wide `sort_by_name` orders primarily by
case-insensitive first name and secondarily by case-insensitive last name;
the single book's name sort (`sort_contacts` with the `first_name` key)
orders by case-insensitive first name only, leaving contacts with equal
first names in stored order. -/
theorem c5_name_sort_keys (r : Registry) (book : Book) :
    (AddressBookSystem.sort_by_name r).Pairwise (fun x y =>
      lowerKey x.first_name < lowerKey y.first_name ∨
      (lowerKey x.first_name = lowerKey y.first_name ∧
        lowerKey x.last_name ≤ lowerKey y.last_name)) ∧
    ∃ sorted : Book,
      AddressBook.sort_contacts book FieldKey.first_name =
        csvHeader :: sorted.map Contact.to_list ∧
      sorted.Pairwise (fun x y => lowerKey x.first_name ≤ lowerKey y.first_name) ∧
      ∀ v : List Char, sorted.filter (fun c => lowerKey c.first_name == v) =
        book.filter (fun c => lowerKey c.first_name == v) := by
  constructor
  · have hs := pySort_sorted AddressBookSystem.nameKey ((r.map Prod.snd).flatten)
    refine hs.imp (fun h => ?_)
    exact (Prod.Lex.le_iff _ _).mp h
  · exact ⟨pySort (fun c => lowerKey c.first_name) book, rfl,
      pySort_sorted _ book, fun v => pySort_filter_key _ v book⟩

/-- C6: the registry-level `sort_by_name` and `sort_by_city` apply one stable
case-insensitive ascending sort across the concatenation of every book's
contacts: each output is a permutation of the concatenation, globally sorted
by its key, with key-equal contacts kept in concatenation order. -/
theorem c6_registry_sort_global (r : Registry) :
    ((AddressBookSystem.sort_by_name r).Perm ((r.map Prod.snd).flatten) ∧
     (AddressBookSystem.sort_by_name r).Pairwise (fun x y =>
        AddressBookSystem.nameKey x ≤ AddressBookSystem.nameKey y) ∧
     ∀ v : List Char × List Char,
       (AddressBookSystem.sort_by_name r).filter
           (fun c => (lowerKey c.first_name, lowerKey c.last_name) == v) =
         ((r.map Prod.snd).flatten).filter
           (fun c => (lowerKey c.first_name, lowerKey c.last_name) == v)) ∧
    ((AddressBookSystem.sort_by_city r).Perm ((r.map Prod.snd).flatten) ∧
     (AddressBookSystem.sort_by_city r).Pairwise (fun x y =>
        lowerKey x.city ≤ lowerKey y.city) ∧
     ∀ v : List Char,
       (AddressBookSystem.sort_by_city r).filter (fun c => lowerKey c.city == v) =
         ((r.map Prod.snd).flatten).filter (fun c => lowerKey c.city == v)) := by
  refine ⟨⟨pySort_perm _ _, pySort_sorted _ _, fun v => ?_⟩,
    ⟨pySort_perm _ _, pySort_sorted _ _, fun v => pySort_filter_key _ v _⟩⟩
  exact filter_insertionSort (fun x y => AddressBookSystem.nameKey x ≤ AddressBookSystem.nameKey y)
    (fun c => (lowerKey c.first_name, lowerKey c.last_name) == v)
    (fun x y hx hy =>
      le_of_eq (congrArg toLex ((eq_of_beq hx).trans (eq_of_beq hy).symm)))
    ((r.map Prod.snd).flatten)

/-- C7: the registry-level counts equal the sums, over all owned books, of
the lengths of the corresponding per-book search results; in particular two
books each holding one contact with city "Paris" give
`count_by_city "paris" = 2`. -/
theorem c7_count_eq_sum (r : Registry) (city st : String) :
    AddressBookSystem.count_by_city r city =
      (r.map (fun nb => (AddressBook.search_by_city nb.2 city).length)).sum ∧
    AddressBookSystem.count_by_state r st =
      (r.map (fun nb => (AddressBook.search_by_state nb.2 st).length)).sum ∧
    AddressBookSystem.count_by_city [("A", [parisAnn]), ("B", [parisBob])] "paris" = 2 := by
  refine ⟨?_, ?_, by decide⟩
  · simpa [AddressBookSystem.count_by_city] using
      foldl_add_map_sum (fun nb : String × Book => (AddressBook.search_by_city nb.2 city).length) r 0
  · simpa [AddressBookSystem.count_by_state] using
      foldl_add_map_sum (fun nb : String × Book => (AddressBook.search_by_state nb.2 st).length) r 0

/-- C8: `sort_contacts key` returns (after the header row) all of the book's
contacts, ordered ascending by the case-folded value of the field and with
key-equal contacts in their stored order; in particular the two "Boston"
contacts added in order X then Y come out in order X, Y. -/
theorem c8_sort_contacts_sorted_stable (book : Book) (key : FieldKey) :
    (∃ sorted : Book,
      AddressBook.sort_contacts book key = csvHeader :: sorted.map Contact.to_list ∧
      sorted.Perm book ∧
      sorted.Pairwise (fun x y => lowerKey (getField key x) ≤ lowerKey (getField key y)) ∧
      ∀ v : List Char, sorted.filter (fun c => lowerKey (getField key c) == v) =
        book.filter (fun c => lowerKey (getField key c) == v)) ∧
    AddressBook.sort_contacts [bostonX, bostonY] FieldKey.city =
      [csvHeader, bostonX.to_list, bostonY.to_list] :=
  ⟨⟨pySort (fun c => lowerKey (getField key c)) book, rfl, pySort_perm _ book,
    pySort_sorted _ book, fun v => pySort_filter_key _ v book⟩, by decide⟩

/-- C9: every failing core operation leaves the store unchanged —
`remove_contact` and `update_contact` returning `False` rewrite exactly the
prior rows, `create_address_book` on a taken name and `delete_address_book`
on an absent name leave the registry as it was. -/
theorem c9_failed_ops_leave_store :
    (∀ (book : Book) (f l : String), (AddressBook.remove_contact book f l).2 = false →
      (AddressBook.remove_contact book f l).1 = book) ∧
    (∀ (book : Book) (f l : String) (nc : Contact),
      (AddressBook.update_contact book f l nc).2 = false →
      (AddressBook.update_contact book f l nc).1 = book) ∧
    (∀ (r : Registry) (nm : String), (r.map Prod.fst).contains nm = true →
      AddressBookSystem.create_address_book r nm = r) ∧
    (∀ (r : Registry) (nm : String), (r.map Prod.fst).contains nm = false →
      AddressBookSystem.delete_address_book r nm = r) := by
  refine ⟨remove_not_found, update_not_found, ?_, ?_⟩
  · intro r nm h
    unfold AddressBookSystem.create_address_book
    rw [if_pos h]
  · intro r nm h
    have hn : ¬ ((r.map Prod.fst).contains nm = true) := by
      rw [h]
      exact Bool.false_ne_true
    unfold AddressBookSystem.delete_address_book
    rw [if_neg hn]

/-- C9, witness for `c9_failed_ops_leave_store`: one concrete failing call of
each of the four operations. -/
theorem c9_failed_ops_leave_store_witness :
    ((AddressBook.remove_contact [annLee] "Zoe" "Q").2 = false ∧
      (AddressBook.remove_contact [annLee] "Zoe" "Q").1 = [annLee]) ∧
    ((AddressBook.update_contact [annLee] "Zoe" "Q" bobKim).2 = false ∧
      (AddressBook.update_contact [annLee] "Zoe" "Q" bobKim).1 = [annLee]) ∧
    (([("A", [annLee])].map Prod.fst).contains "A" = true ∧
      AddressBookSystem.create_address_book [("A", [annLee])] "A" = [("A", [annLee])]) ∧
    (([("A", [annLee])].map Prod.fst).contains "B" = false ∧
      AddressBookSystem.delete_address_book [("A", [annLee])] "B" = [("A", [annLee])]) :=
  ⟨⟨by decide, c9_failed_ops_leave_store.1 [annLee] "Zoe" "Q" (by decide)⟩,
   ⟨by decide, c9_failed_ops_leave_store.2.1 [annLee] "Zoe" "Q" bobKim (by decide)⟩,
   ⟨by decide, c9_failed_ops_leave_store.2.2.1 [("A", [annLee])] "A" (by decide)⟩,
   ⟨by decide, c9_failed_ops_leave_store.2.2.2 [("A", [annLee])] "B" (by decide)⟩⟩

/-- C10: `remove_contact` deletes every stored contact whose first and last
name both match case-insensitively (the result is the filter keeping
non-matching rows, hence a sublist preserving their order), and returns
`True` exactly when at least one row matched. -/
theorem c10_remove_removes_all (book : Book) (f l : String) :
    (AddressBook.remove_contact book f l).1 =
      book.filter (fun c => !(nameMatches c f l)) ∧
    ((AddressBook.remove_contact book f l).2 = true ↔
      ∃ c ∈ book, nameMatches c f l = true) ∧
    (AddressBook.remove_contact book f l).1.Sublist book := by
  refine ⟨remove_fst_eq_filter book f l, ?_, ?_⟩
  · rw [remove_snd_eq_any]
    exact List.any_eq_true
  · rw [remove_fst_eq_filter]
    exact List.filter_sublist _
